import Mathlib

/-!
Verification of the filter-to-SQL compiler of the Excel-Filtering repository
(`src/app.py`): the generic `build_where` predicate compiler, the query
assembly into `sql_preview`, the preset SQL templates, and the `pick_col`
role-to-column fallback.  Python strings are modelled as Lean `String`s;
the Python string operations used by the code (`str.strip`, `str.split`,
`float(...)` parsing) are embedded below over their ASCII behaviour.
-/

namespace ExcelFiltering

/-- The whitespace characters stripped by Python `str.strip()` (ASCII range). -/
def pySpace (c : Char) : Bool :=
  c = ' ' || c = '\t' || c = '\n' || c = '\r' || c = '\x0b' || c = '\x0c'

/-- Python `s.strip()`: remove leading and trailing whitespace. -/
def pyStrip (s : String) : String :=
  String.mk (((s.data.dropWhile pySpace).reverse.dropWhile pySpace).reverse)

/-- Python `s.split(",")` on the character list: splitting on every comma,
keeping empty pieces (`"".split(",") == [""]`). -/
def splitCommaList : List Char → List (List Char)
  | [] => [[]]
  | c :: r =>
    let rest := splitCommaList r
    if c = ',' then [] :: rest
    else
      match rest with
      | h :: t => (c :: h) :: t
      | [] => [[c]]

/-- Python `s.split(",")`. -/
def pySplitComma (s : String) : List String :=
  (splitCommaList s.data).map String.mk

/-- Consume the tail of a Python digit-part `digit (["_"] digit)*` after its
first digit: further digits, with single underscores allowed only between
digits.  Returns the unconsumed remainder. -/
def digTail : List Char → List Char
  | [] => []
  | c :: rest =>
    if c.isDigit then digTail rest
    else if c = '_' then
      match rest with
      | d :: rest2 => if d.isDigit then digTail rest2 else c :: rest
      | [] => [c]
    else c :: rest

/-- Parse a Python digit-part `digit (["_"] digit)*`; `some rest` on success. -/
def parseDigitpart : List Char → Option (List Char)
  | [] => none
  | c :: r => if c.isDigit then some (digTail r) else none

/-- Drop one optional leading sign character. -/
def dropSign : List Char → List Char
  | '+' :: r => r
  | '-' :: r => r
  | l => l

/-- The optional exponent suffix of a Python float literal:
either nothing remains, or `("e"|"E") [sign] digitpart` consumes the rest. -/
def expOk (l : List Char) : Bool :=
  match l with
  | [] => true
  | c :: r =>
    if c = 'e' || c = 'E' then
      match parseDigitpart (dropSign r) with
      | some [] => true
      | _ => false
    else false

/-- The mantissa (and exponent) of a Python float literal:
`digitpart ["." [digitpart]] [exp]` or `"." digitpart [exp]`. -/
def mantissaOk (l : List Char) : Bool :=
  match parseDigitpart l with
  | some r =>
    match r with
    | '.' :: r2 =>
      (match parseDigitpart r2 with
       | some r3 => expOk r3
       | none => expOk r2)
    | _ => expOk r
  | none =>
    match l with
    | '.' :: r2 =>
      (match parseDigitpart r2 with
       | some r3 => expOk r3
       | none => false)
    | _ => false

/-- The special floats accepted by Python: `inf`, `infinity`, `nan`,
case-insensitively. -/
def specialOk (l : List Char) : Bool :=
  let low := l.map Char.toLower
  low = "inf".data || low = "infinity".data || low = "nan".data

/-- Whether CPython `float(s)` succeeds (ASCII grammar): surrounding
whitespace is stripped, then an optional sign, then either a special value
(`inf`/`infinity`/`nan`) or a float literal with optional underscores
between digits. -/
def isPyFloat (s : String) : Bool :=
  let l := dropSign (pyStrip s).data
  specialOk l || mantissaOk l

/-- The operator list offered by the UI (`src/app.py`, line 164). -/
def operators : List String :=
  ["=", "!=", ">", ">=", "<", "<=", "contains", "starts_with", "ends_with",
   "in (comma separated)"]

/-- One iteration of the loop body of `build_where` (`src/app.py`,
lines 189-210): the optional WHERE fragment contributed by a single
(column, operator, value) triple.  `none` means the triple appends nothing. -/
def frag : String × String × String → Option String
  | (col, op, val) =>
    if val = "" ∨ pyStrip val = "" then none
    else
      let col_sql := "\"" ++ col ++ "\""
      if op ∈ ["=", "!=", ">", ">=", "<", "<="] then
        -- attempt numeric compare, else string
        if isPyFloat val then
          some ("CAST(" ++ col_sql ++ " AS DOUBLE) " ++ op ++ " " ++ val)
        else
          some ("CAST(" ++ col_sql ++ " AS VARCHAR) " ++ op ++ " '" ++ val ++ "'")
      else if op = "contains" then
        some ("CAST(" ++ col_sql ++ " AS VARCHAR) ILIKE '%" ++ val ++ "%'")
      else if op = "starts_with" then
        some ("CAST(" ++ col_sql ++ " AS VARCHAR) ILIKE '" ++ val ++ "%'")
      else if op = "ends_with" then
        some ("CAST(" ++ col_sql ++ " AS VARCHAR) ILIKE '%" ++ val ++ "'")
      else if op = "in (comma separated)" then
        let items := ((pySplitComma val).filter (fun x => pyStrip x ≠ "")).map pyStrip
        let quoted := String.intercalate "," (items.map (fun x => "'" ++ x ++ "'"))
        some ("CAST(" ++ col_sql ++ " AS VARCHAR) IN (" ++ quoted ++ ")")
      else none

/-- Embeds `build_where` (`src/app.py`, lines 187-212): the conjunction of the
fragments of all non-skipped triples, joined with `" AND "`. -/
def build_where (filters : List (String × String × String)) : String :=
  String.intercalate " AND " (filters.filterMap frag)

/-- Embeds `where_sql` (`src/app.py`, line 215): the WHERE clause text, empty
when the compiled predicate is empty. -/
def where_sql (where_clause : String) : String :=
  if where_clause ≠ "" then "WHERE " ++ where_clause else ""

/-- Embeds `sql_preview` (`src/app.py`, lines 227-233): the assembled query
text. -/
def sql_preview (select_sql wsql group_sql : String) (limit : Nat) : String :=
  "\nSELECT " ++ select_sql ++ "\nFROM data\n" ++ wsql ++ "\n" ++ group_sql ++
    "\nLIMIT " ++ Nat.repr limit ++ ";\n"

/-- Embeds `pick_col` (`src/app.py`, lines 55-59), modelling the default
selection of the selectbox: index of the preferred name when present, else
index 0. -/
def pick_col (preferred : String) (options : List String) : Option String :=
  let idx := if preferred ∈ options then List.indexOf preferred options else 0
  options[idx]?

/-- Whether `pat` is an initial segment of `l`. -/
def leadsWith : List Char → List Char → Bool
  | [], _ => true
  | _ :: _, [] => false
  | p :: ps, c :: cs => p == c && leadsWith ps cs

/-- The remainder of `l` after the first occurrence of `pat`, if any. -/
def afterFirst (pat : List Char) : List Char → Option (List Char)
  | [] => if pat = [] then some [] else none
  | c :: r =>
    if leadsWith pat (c :: r) then some ((c :: r).drop pat.length)
    else afterFirst pat r

/-- Decimal value of a digit string. -/
def digitsToNat (l : List Char) : Nat :=
  l.foldl (fun n c => n * 10 + (c.toNat - '0'.toNat)) 0

/-- The numeric argument of the first `LIMIT ` clause occurring in a query
text, if any. -/
def limitOf (sql : String) : Option Nat :=
  match afterFirst "LIMIT ".data sql.data with
  | some r =>
    let ds := r.takeWhile Char.isDigit
    if ds = [] then none else some (digitsToNat ds)
  | none => none

/-- Preset "Top 10 failing domains" (`src/app.py`, lines 76-82). -/
def topFailingDomainsSql (col_domain : String) : String :=
  "\n            SELECT \"" ++ col_domain ++
    "\" AS to_domain, COUNT(*) AS failures\n            FROM data\n            GROUP BY \"" ++
    col_domain ++ "\"\n            ORDER BY failures DESC\n            " ++
    "LIMIT 10;\n            "

/-- Preset "Top failure reasons" (`src/app.py`, lines 87-93). -/
def topFailureReasonsSql (col_reason : String) : String :=
  "\n            SELECT \"" ++ col_reason ++
    "\" AS reason, COUNT(*) AS cnt\n            FROM data\n            GROUP BY \"" ++
    col_reason ++ "\"\n            ORDER BY cnt DESC\n            " ++
    "LIMIT 15;\n            "

/-- Preset "Top SMTP codes" (`src/app.py`, lines 98-104). -/
def topSmtpCodesSql (col_smtp : String) : String :=
  "\n            SELECT \"" ++ col_smtp ++
    "\" AS smtp_code, COUNT(*) AS cnt\n            FROM data\n            GROUP BY \"" ++
    col_smtp ++ "\"\n            ORDER BY cnt DESC\n            " ++
    "LIMIT 20;\n            "

/-- Preset "Top users by failures" (`src/app.py`, lines 109-115). -/
def topUsersSql (col_user : String) : String :=
  "\n            SELECT \"" ++ col_user ++
    "\" AS user, COUNT(*) AS failures\n            FROM data\n            GROUP BY \"" ++
    col_user ++ "\"\n            ORDER BY failures DESC\n            " ++
    "LIMIT 20;\n            "

/-- Preset "Failures by day" (`src/app.py`, lines 121-127). -/
def failuresByDaySql (col_date : String) : String :=
  "\n            SELECT CAST(\"" ++ col_date ++
    "\" AS DATE) AS sent_day, COUNT(*) AS failures\n            FROM data\n            GROUP BY sent_day\n            ORDER BY sent_day DESC\n            " ++
    "LIMIT 30;\n            "

/-- Preset "Lowest success-rate domains" (`src/app.py`, lines 137-142). -/
def lowestSuccessRateSql : String :=
  "\n            SELECT Domain, Recipients, Delivered, \"Success Rate %\" AS success_rate\n            FROM data\n            ORDER BY \"Success Rate %\" ASC\n            " ++
    "LIMIT 25;\n            "

/-- Preset "Highest recipients among low deliverability" (`src/app.py`,
lines 146-151). -/
def highestRecipientsSql : String :=
  "\n            SELECT Domain, Recipients, Delivered, \"Success Rate %\" AS success_rate\n            FROM data\n            ORDER BY Recipients DESC\n            " ++
    "LIMIT 25;\n            "

/-- A preset template text ends with a baked-in `LIMIT k;` clause (followed by
the closing indentation of the template). -/
def endsWithLimit (s : String) (k : Nat) : Prop :=
  ∃ p, s = p ++ ("LIMIT " ++ Nat.repr k ++ ";\n            ")

/-- The item list of the membership operator as the spec words it: "split the
value on commas, trim whitespace from each item, drop empty items". -/
def specInItems (v : String) : List String :=
  ((pySplitComma v).map pyStrip).filter (fun x => x ≠ "")

/-- The membership fragment as the spec words it: "a set-membership test
against the text-cast column using the resulting literal set". -/
def specInMembership (col : String) (items : List String) : String :=
  "CAST(" ++ ("\"" ++ col ++ "\"") ++ " AS VARCHAR) IN (" ++
    String.intercalate "," (items.map (fun x => "'" ++ x ++ "'")) ++ ")"

/-- The columns of the triples that contribute a fragment to the compiled
predicate: exactly these column names are interpolated into the WHERE text. -/
def usedCols (filters : List (String × String × String)) : List String :=
  (filters.filter (fun t => (frag t).isSome)).map (fun t => t.1)

-- sanity examples (evaluation of the embedding on concrete inputs)
example : isPyFloat "5" = true := by decide
example : isPyFloat " -3.5e-2 " = true := by decide
example : isPyFloat "1_000.5" = true := by decide
example : isPyFloat "Infinity" = true := by decide
example : isPyFloat "abc" = false := by decide
example : isPyFloat "1_" = false := by decide
example : isPyFloat "" = false := by decide
example : isPyFloat "." = false := by decide
example : isPyFloat "5." = true := by decide
example : isPyFloat ".5e3" = true := by decide
example : isPyFloat "1e" = false := by decide
example : pySplitComma "a, b ,c" = ["a", " b ", "c"] := by decide
example : pySplitComma "" = [""] := by decide
example : pyStrip "  x y\t" = "x y" := by decide
example : build_where [("Status", "=", "5")] = "CAST(\"Status\" AS DOUBLE) = 5" := by decide
example : build_where [("Name", "=", "bob")] = "CAST(\"Name\" AS VARCHAR) = 'bob'" := by decide
example : build_where [("c", "in (comma separated)", "a, b ,c")] =
    "CAST(\"c\" AS VARCHAR) IN ('a','b','c')" := by decide
example : build_where [("c", "in (comma separated)", " , ")] =
    "CAST(\"c\" AS VARCHAR) IN ()" := by decide
example : build_where [("a", "=", "1"), ("b", "contains", "x")] =
    "CAST(\"a\" AS DOUBLE) = 1 AND CAST(\"b\" AS VARCHAR) ILIKE '%x%'" := by decide
example : limitOf (topFailingDomainsSql "To Domain") = some 10 := by decide
example : limitOf lowestSuccessRateSql = some 25 := by decide

-- helper lemmas

theorem intercalate_single (s x : String) : String.intercalate s [x] = x := rfl

theorem endsWithLimit_append (p : String) (k : Nat) (lit : String)
    (h : "LIMIT " ++ Nat.repr k ++ ";\n            " = lit) :
    endsWithLimit (p ++ lit) k :=
  ⟨p, by rw [h]⟩

theorem frag_none_of_blank {col op val : String} (h : pyStrip val = "") :
    frag (col, op, val) = none := by
  simp only [frag]
  rw [if_pos (Or.inr h)]

theorem map_pyStrip_filter (l : List String) :
    (l.filter (fun x => pyStrip x ≠ "")).map pyStrip =
      (l.map pyStrip).filter (fun x => x ≠ "") := by
  induction l with
  | nil => rfl
  | cons x xs ih =>
    by_cases hx : pyStrip x = ""
    · simpa [hx] using ih
    · simpa [hx] using ih

theorem quoted_infix_helper (q R : String) :
    List.IsInfix q.data ("CAST(" ++ (q ++ R)).data :=
  ⟨"CAST(".data, R.data, by simp [String.data_append, List.append_assoc]⟩

theorem quoted_col_infix {col op val s : String}
    (h : frag (col, op, val) = some s) :
    List.IsInfix ("\"" ++ col ++ "\"").data s.data := by
  simp only [frag] at h
  split at h
  · exact absurd h (by simp)
  · split at h
    · split at h
      · injection h with h
        subst h
        simpa [String.append_assoc] using
          quoted_infix_helper ("\"" ++ col ++ "\"")
            (" AS DOUBLE) " ++ op ++ " " ++ val)
      · injection h with h
        subst h
        simpa [String.append_assoc] using
          quoted_infix_helper ("\"" ++ col ++ "\"")
            (" AS VARCHAR) " ++ op ++ " '" ++ val ++ "'")
    · split at h
      · injection h with h
        subst h
        simpa [String.append_assoc] using
          quoted_infix_helper ("\"" ++ col ++ "\"")
            (" AS VARCHAR) ILIKE '%" ++ val ++ "%'")
      · split at h
        · injection h with h
          subst h
          simpa [String.append_assoc] using
            quoted_infix_helper ("\"" ++ col ++ "\"")
              (" AS VARCHAR) ILIKE '" ++ val ++ "%'")
        · split at h
          · injection h with h
            subst h
            simpa [String.append_assoc] using
              quoted_infix_helper ("\"" ++ col ++ "\"")
                (" AS VARCHAR) ILIKE '%" ++ val ++ "'")
          · split at h
            · injection h with h
              subst h
              simpa [String.append_assoc] using
                quoted_infix_helper ("\"" ++ col ++ "\"")
                  (" AS VARCHAR) IN (" ++
                    String.intercalate ","
                      (((((pySplitComma val).filter
                        (fun x => pyStrip x ≠ "")).map pyStrip).map
                          (fun x => "'" ++ x ++ "'"))) ++ ")")
            · exact absurd h (by simp)

/-- C1: for the six equality/ordering operators, on a non-blank value the
compiled fragment is the numeric-typed comparison (column cast to DOUBLE,
compared against the raw literal value) exactly when the value parses as a
Python float, and the text-typed comparison (column cast to VARCHAR, compared
against the quoted literal string) otherwise; the compiler is a total
function, so no error is raised in either case. -/
theorem c1_comparator_numeric_iff_float (col op val : String)
    (hop : op ∈ ["=", "!=", ">", ">=", "<", "<="])
    (hval : pyStrip val ≠ "") :
    build_where [(col, op, val)] =
      if isPyFloat val then
        "CAST(" ++ ("\"" ++ col ++ "\"") ++ " AS DOUBLE) " ++ op ++ " " ++ val
      else
        "CAST(" ++ ("\"" ++ col ++ "\"") ++ " AS VARCHAR) " ++ op ++ " '" ++
          val ++ "'" := by
  have hv : ¬(val = "" ∨ pyStrip val = "") := by
    rintro (rfl | hs)
    · exact hval (by decide)
    · exact hval hs
  have hfrag : frag (col, op, val) =
      some (if isPyFloat val then
        "CAST(" ++ ("\"" ++ col ++ "\"") ++ " AS DOUBLE) " ++ op ++ " " ++ val
      else
        "CAST(" ++ ("\"" ++ col ++ "\"") ++ " AS VARCHAR) " ++ op ++ " '" ++
          val ++ "'") := by
    simp only [frag]
    rw [if_neg hv, if_pos hop, apply_ite some]
  unfold build_where
  simp [List.filterMap_cons, hfrag, intercalate_single]

/-- C1 witness: the filter (`Status`, `=`, `5`) compiles to a numeric-typed
comparison. -/
theorem c1_comparator_numeric_iff_float_witness :
    build_where [("Status", "=", "5")] =
      if isPyFloat "5" then
        "CAST(" ++ ("\"" ++ "Status" ++ "\"") ++ " AS DOUBLE) " ++ "=" ++ " " ++ "5"
      else
        "CAST(" ++ ("\"" ++ "Status" ++ "\"") ++ " AS VARCHAR) " ++ "=" ++ " '" ++
          "5" ++ "'" :=
  c1_comparator_numeric_iff_float "Status" "=" "5" (by decide) (by decide)

/-- C2: a triple with an empty or whitespace-only value contributes nothing:
compiling a list containing it yields exactly the same predicate as compiling
the list with that triple omitted, for any surrounding triples. -/
theorem c2_blank_value_skipped (pre post : List (String × String × String))
    (col op val : String) (h : pyStrip val = "") :
    build_where (pre ++ (col, op, val) :: post) = build_where (pre ++ post) := by
  unfold build_where
  simp [List.filterMap_append, List.filterMap_cons, frag_none_of_blank h]

/-- C2 witness: a whitespace-only value in the middle of a filter list is
skipped. -/
theorem c2_blank_value_skipped_witness :
    build_where [("A", "=", "1"), ("B", "=", "   ")] =
      build_where [("A", "=", "1")] :=
  c2_blank_value_skipped [("A", "=", "1")] [] "B" "=" "   " (by decide)

/-- C3: for the membership operator on a value with at least one
non-whitespace comma-separated item, the compiled fragment is the
set-membership test of the text-cast column against exactly the items
obtained by splitting on commas, trimming each item, and dropping empty
items; in particular the value `"a, b ,c"` yields the items
`["a", "b", "c"]`. -/
theorem c3_in_operator_items (col val : String) (h1 : pyStrip val ≠ "")
    (h2 : specInItems val ≠ []) :
    build_where [(col, "in (comma separated)", val)] =
      specInMembership col (specInItems val) ∧
      specInItems "a, b ,c" = ["a", "b", "c"] := by
  refine ⟨?_, by decide⟩
  have hv : ¬(val = "" ∨ pyStrip val = "") := by
    rintro (rfl | hs)
    · exact h1 (by decide)
    · exact h1 hs
  have hfrag : frag (col, "in (comma separated)", val) =
      some (specInMembership col (specInItems val)) := by
    simp only [frag]
    rw [if_neg hv,
      if_neg (by decide : ¬("in (comma separated)" ∈
        ["=", "!=", ">", ">=", "<", "<="])),
      if_neg (by decide : ¬("in (comma separated)" = "contains")),
      if_neg (by decide : ¬("in (comma separated)" = "starts_with")),
      if_neg (by decide : ¬("in (comma separated)" = "ends_with"))]
    simp only [if_true]
    rw [map_pyStrip_filter]
    rfl
  unfold build_where
  simp [List.filterMap_cons, hfrag, intercalate_single]

/-- C3 witness: the filter (`Name`, `in (comma separated)`, `" x, ,y"`)
compiles to membership in exactly the trimmed non-empty items. -/
theorem c3_in_operator_items_witness :
    build_where [("Name", "in (comma separated)", " x, ,y")] =
      specInMembership "Name" (specInItems " x, ,y") ∧
      specInItems "a, b ,c" = ["a", "b", "c"] :=
  c3_in_operator_items "Name" " x, ,y" (by decide) (by decide)

/-- C4: evaluation at the failing input.  For the membership operator on the
non-empty value `" , "` (all items empty after trimming) the compiler emits
the degenerate fragment `CAST("c" AS VARCHAR) IN ()` with an empty item
list — an empty SQL `IN` list, which the engine rejects as malformed rather
than evaluating to an empty result. -/
theorem c4_degenerate_in_fragment :
    specInItems " , " = [] ∧
    build_where [("c", "in (comma separated)", " , ")] =
      "CAST(\"c\" AS VARCHAR) IN ()" := by decide

/-- C5: compiling a list in which every triple has an empty/whitespace-only
value (in particular the empty list) yields an empty predicate, the WHERE
component of the assembled query is the empty string, and the assembled query
equals the query assembled with no WHERE clause at all. -/
theorem c5_all_blank_no_where (filters : List (String × String × String))
    (s g : String) (l : Nat) (h : ∀ t ∈ filters, pyStrip t.2.2 = "") :
    build_where filters = "" ∧
      where_sql (build_where filters) = "" ∧
      sql_preview s (where_sql (build_where filters)) g l =
        sql_preview s "" g l := by
  have hnil : filters.filterMap frag = [] := by
    induction filters with
    | nil => rfl
    | cons t ts ih =>
      obtain ⟨c, o, v⟩ := t
      have h1 : frag (c, o, v) = none :=
        frag_none_of_blank (h (c, o, v) (List.mem_cons_self _ _))
      simp [List.filterMap_cons, h1,
        ih (fun t ht => h t (List.mem_cons_of_mem _ ht))]
  have hbw : build_where filters = "" := by rw [build_where, hnil]; rfl
  have hws : where_sql "" = "" := by decide
  exact ⟨hbw, by rw [hbw, hws], by rw [hbw, hws]⟩

/-- C5 witness: a single all-whitespace filter on the default projection and
limit yields a query with no WHERE clause. -/
theorem c5_all_blank_no_where_witness :
    build_where [("A", "contains", "  ")] = "" ∧
      where_sql (build_where [("A", "contains", "  ")]) = "" ∧
      sql_preview "*" (where_sql (build_where [("A", "contains", "  ")]))
          "" 1000 =
        sql_preview "*" "" "" 1000 :=
  c5_all_blank_no_where [("A", "contains", "  ")] "*" "" 1000 (by decide)

/-- C6 counterexample: the predicate compiler performs no schema-membership
check and never rejects — for a column name absent from a schema it still
emits the comparison fragment referencing that unknown column. -/
theorem c6_counterexample_no_schema_check :
    build_where [("ghost", "=", "1")] = "CAST(\"ghost\" AS DOUBLE) = 1" ∧
      "ghost" ∉ (["To Domain", "User", "Status"] : List String) := by decide

/-- C6 amended: the compiler itself checks nothing; instead, every column
interpolated into the compiled predicate comes from an input triple, so when
every input triple's column is drawn from the schema (which the UI selection
widgets guarantee), every column referenced by the compiled predicate — each
conjunct quotes its triple's column name — is a schema column.  An unknown
column could only be rejected later, at execution time, by the engine. -/
theorem c6_schema_membership_from_inputs
    (filters : List (String × String × String)) (schema : List String)
    (h : ∀ t ∈ filters, t.1 ∈ schema) :
    (∀ c ∈ usedCols filters, c ∈ schema) ∧
      (∀ s ∈ filters.filterMap frag,
        ∃ t ∈ filters, t.1 ∈ schema ∧
          List.IsInfix ("\"" ++ t.1 ++ "\"").data s.data) ∧
      build_where filters =
        String.intercalate " AND " (filters.filterMap frag) := by
  refine ⟨?_, ?_, rfl⟩
  · intro c hc
    simp only [usedCols, List.mem_map, List.mem_filter] at hc
    obtain ⟨t, ⟨ht, _⟩, rfl⟩ := hc
    exact h t ht
  · intro s hs
    rw [List.mem_filterMap] at hs
    obtain ⟨t, ht, hf⟩ := hs
    obtain ⟨c, o, v⟩ := t
    exact ⟨(c, o, v), ht, h _ ht, quoted_col_infix hf⟩

/-- C6 amended witness: with inputs drawn from a two-column schema, every
referenced column is in the schema. -/
theorem c6_schema_membership_from_inputs_witness :
    (∀ c ∈ usedCols [("To Domain", "=", "5")],
        c ∈ (["To Domain", "User"] : List String)) ∧
      (∀ s ∈ ([("To Domain", "=", "5")] :
            List (String × String × String)).filterMap frag,
        ∃ t ∈ ([("To Domain", "=", "5")] :
            List (String × String × String)),
          t.1 ∈ (["To Domain", "User"] : List String) ∧
            List.IsInfix ("\"" ++ t.1 ++ "\"").data s.data) ∧
      build_where [("To Domain", "=", "5")] =
        String.intercalate " AND "
          (([("To Domain", "=", "5")] :
            List (String × String × String)).filterMap frag) :=
  c6_schema_membership_from_inputs [("To Domain", "=", "5")]
    ["To Domain", "User"] (by decide)

/-- C7 counterexample: the "Lowest success-rate domains" preset bakes in
`LIMIT 25`, which is not one of 10, 15, 20, 30. -/
theorem c7_counterexample_limit_25 :
    limitOf lowestSuccessRateSql = some 25 ∧
      (25 : Nat) ∉ ([10, 15, 20, 30] : List Nat) := by decide

/-- C7 amended: every preset template has a fixed row limit baked in (for
every choice of mapped column the template text ends with its `LIMIT k;`
clause), and the limits are 10, 15, 20, 20, 30 for the five "Failure
Details" presets and 25 for both "Domains w Lower Deliverability" presets;
so every preset limit is one of 10, 15, 20, 25, 30. -/
theorem c7_preset_limits (cd cr cs cu cdt : String) :
    (endsWithLimit (topFailingDomainsSql cd) 10 ∧
      endsWithLimit (topFailureReasonsSql cr) 15 ∧
      endsWithLimit (topSmtpCodesSql cs) 20 ∧
      endsWithLimit (topUsersSql cu) 20 ∧
      endsWithLimit (failuresByDaySql cdt) 30 ∧
      endsWithLimit lowestSuccessRateSql 25 ∧
      endsWithLimit highestRecipientsSql 25) ∧
      ∀ k ∈ ([10, 15, 20, 20, 30, 25, 25] : List Nat),
        k ∈ ([10, 15, 20, 25, 30] : List Nat) :=
  ⟨⟨endsWithLimit_append _ 10 _ (by decide),
    endsWithLimit_append _ 15 _ (by decide),
    endsWithLimit_append _ 20 _ (by decide),
    endsWithLimit_append _ 20 _ (by decide),
    endsWithLimit_append _ 30 _ (by decide),
    endsWithLimit_append _ 25 _ (by decide),
    endsWithLimit_append _ 25 _ (by decide)⟩,
    by decide⟩

/-- C8: on a non-empty schema, role resolution always yields some existing
column: the preferred name itself when present, and the schema's first
column as fallback when absent — so resolution never fails. -/
theorem c8_pick_col_fallback (preferred : String) (options : List String)
    (h : options ≠ []) :
    ∃ c, pick_col preferred options = some c ∧ c ∈ options ∧
      (preferred ∈ options → c = preferred) ∧
      (preferred ∉ options → options[0]? = some c) := by
  by_cases hp : preferred ∈ options
  · have hlt : List.indexOf preferred options < options.length :=
      List.indexOf_lt_length.mpr hp
    refine ⟨preferred, ?_, hp, fun _ => rfl, fun hn => absurd hp hn⟩
    simp only [pick_col, if_pos hp]
    rw [List.getElem?_eq_getElem hlt, List.getElem_indexOf hlt]
  · obtain ⟨x, xs, rfl⟩ := List.exists_cons_of_ne_nil h
    refine ⟨x, ?_, List.mem_cons_self x xs, fun hin => absurd hin hp,
      fun _ => List.getElem?_cons_zero⟩
    simp only [pick_col, if_neg hp]
    exact List.getElem?_cons_zero

/-- C8 witness: a preferred name absent from the schema resolves to the first
column. -/
theorem c8_pick_col_fallback_witness :
    ∃ c, pick_col "Date Sent" ["A", "B"] = some c ∧
      c ∈ (["A", "B"] : List String) ∧
      ("Date Sent" ∈ (["A", "B"] : List String) → c = "Date Sent") ∧
      ("Date Sent" ∉ (["A", "B"] : List String) →
        (["A", "B"] : List String)[0]? = some c) :=
  c8_pick_col_fallback "Date Sent" ["A", "B"] (by decide)

/-- C9: for every projection, predicate and grouping, the assembled query
text ends with a `LIMIT n;` clause, where `n` is the limit value, which the
limit widget constrains to 1 ≤ n ≤ 100000. -/
theorem c9_limit_clause_always_present (s w g : String) (n : Nat)
    (h1 : 1 ≤ n) (h2 : n ≤ 100000) :
    (∃ p, sql_preview s w g n = p ++ ("LIMIT " ++ Nat.repr n ++ ";\n")) ∧
      1 ≤ n ∧ n ≤ 100000 := by
  refine ⟨⟨"\nSELECT " ++ s ++ "\nFROM data\n" ++ w ++ "\n" ++ g ++ "\n",
    ?_⟩, h1, h2⟩
  apply String.ext
  simp only [sql_preview, String.data_append]
  simp [List.append_assoc]

/-- C9 witness: the default configuration (all columns, no filters, no
grouping, limit 1000) assembles a query ending in `LIMIT 1000;`. -/
theorem c9_limit_clause_always_present_witness :
    (∃ p, sql_preview "*" "" "" 1000 =
      p ++ ("LIMIT " ++ Nat.repr 1000 ++ ";\n")) ∧
      1 ≤ 1000 ∧ 1000 ≤ 100000 :=
  c9_limit_clause_always_present "*" "" "" 1000 (by decide) (by decide)

/-- C10: a triple whose operator is not one of the ten operators of the UI
list is silently skipped, exactly as if its value were empty: the compiled
predicate is the one of the remaining triples, and no error is raised. -/
theorem c10_unknown_operator_skipped
    (pre post : List (String × String × String))
    (col op val : String) (h : op ∉ operators) :
    build_where (pre ++ (col, op, val) :: post) = build_where (pre ++ post) := by
  have hfrag : frag (col, op, val) = none := by
    simp only [operators, List.mem_cons, List.not_mem_nil, or_false,
      not_or] at h
    obtain ⟨h1, h2, h3, h4, h5, h6, h7, h8, h9, h10⟩ := h
    by_cases hb : (val = "" ∨ pyStrip val = "")
    · simp [frag, hb]
    · simp [frag, hb, h1, h2, h3, h4, h5, h6, h7, h8, h9, h10]
  unfold build_where
  simp [List.filterMap_append, List.filterMap_cons, hfrag]

/-- C10 witness: an unrecognized operator (`between`) with a non-empty value
contributes nothing to the compiled predicate. -/
theorem c10_unknown_operator_skipped_witness :
    build_where [("A", "between", "5")] = build_where [] :=
  c10_unknown_operator_skipped [] [] "A" "between" "5" (by decide)

end ExcelFiltering
